import Mathlib

/-!
Verification of the GskSl compiler driver (src/gsk/gskslcompiler.c).

The file shallowly embeds the driver: the macro-defines table and its
lexical capture (`gsk_sl_compiler_add_define`, `remove_define`,
`copy_defines`), include resolution (`gsk_sl_compiler_resolve_include`)
and the compile pipeline (`gsk_sl_compiler_compile`,
`compile_file`, `compile_bytes`). External collaborators (the tokenizer,
the preprocessor, the parser, GLib's file layer) are modelled from the
spec as explicit parameters or abstract data, since their code is not
part of the driver.
-/

/-- A source location, as stored by the tokenizer: a 0-based line count
and a byte offset within the line (fields `lines` and `line_bytes` of
`GskCodeLocation`). -/
structure GskCodeLocation where
  lines : Nat
  line_bytes : Nat
deriving DecidableEq, Repr

/-- Modelled from the spec: token kinds as the driver observes them.
The tokenizer's lexical grammar is external; the driver only asks
whether a token is skippable (whitespace/comments), is EOF, or is an
ordinary token (carrying an abstract payload). -/
inductive GskSlTokenKind where
  | eof : GskSlTokenKind
  | skipped : Nat → GskSlTokenKind
  | normal : Nat → GskSlTokenKind
deriving DecidableEq, Repr

/-- A lexical token, as far as the driver inspects it. -/
structure GskSlToken where
  kind : GskSlTokenKind
deriving DecidableEq, Repr

/-- Modelled from the spec: `gsk_sl_token_is_skipped` (external,
gsksltokenizer) — whether the token is classified skippable. -/
def gsk_sl_token_is_skipped (t : GskSlToken) : Bool :=
  match t.kind with
  | GskSlTokenKind.skipped _ => true
  | _ => false

/-- Modelled from the spec: `gsk_sl_token_is (t, GSK_SL_TOKEN_EOF)`
(external, gsksltokenizer). -/
def gsk_sl_token_is_eof (t : GskSlToken) : Bool :=
  match t.kind with
  | GskSlTokenKind.eof => true
  | _ => false

/-- A GError: a domain (quark string), an error code and a message. -/
structure GError where
  domain : String
  code : Nat
  message : String
deriving DecidableEq, Repr

/-- The GLib file-error domain `G_FILE_ERROR` (quark string). -/
def G_FILE_ERROR : String := "g-file-error-quark"

/-- The GLib file-error code `G_FILE_ERROR_EXIST`. -/
def G_FILE_ERROR_EXIST : Nat := 0

/-- The GLib file-error code `G_FILE_ERROR_FAILED`. -/
def G_FILE_ERROR_FAILED : Nat := 24

/-- The compiler-level error domain registered by
`G_DEFINE_QUARK (gsk-sl-compiler-error-quark, gsk_sl_compiler_error)`. -/
def GSK_SL_COMPILER_ERROR : String := "gsk-sl-compiler-error-quark"

/-- The warning domain registered by
`G_DEFINE_QUARK (gsk-sl-compiler-warning-quark, gsk_sl_compiler_warning)`. -/
def GSK_SL_COMPILER_WARNING : String := "gsk-sl-compiler-warning-quark"

/-- Modelled from the spec: a diagnostic delivered to the tokenizer's
error callback: `(fatal, location, token, error)`; the token argument is
unused by the driver's callback, so it is omitted. -/
structure GskSlDiagnostic where
  fatal : Bool
  location : GskCodeLocation
  error : GError
deriving DecidableEq, Repr

/-- Modelled from the spec: one `read_token` step of the external
tokenizer. `location` is what `gsk_sl_tokenizer_get_location` returns
immediately before the read (the position at which the token starts);
`diags` are the diagnostics the read emits through the error callback,
in order; `token` is the token the read yields. -/
structure TokenRead where
  location : GskCodeLocation
  diags : List GskSlDiagnostic
  token : GskSlToken
deriving DecidableEq, Repr

/-- Modelled from the spec: a MacroDefinition (`GskSlDefine`, external
gsksldefine): a named object holding the ordered sequence of
(SourceLocation, Token) pairs of the macro's unexpanded body. -/
structure GskSlDefine where
  name : String
  body : List (GskCodeLocation × GskSlToken)
deriving DecidableEq, Repr

/-- Modelled from the spec: `gsk_sl_define_new (name, NULL)` — a fresh
define with an empty body. -/
def gsk_sl_define_new (name : String) : GskSlDefine :=
  { name := name, body := [] }

/-- Modelled from the spec: `gsk_sl_define_add_token` appends a
(location, token) pair to the body. -/
def gsk_sl_define_add_token (d : GskSlDefine) (loc : GskCodeLocation)
    (t : GskSlToken) : GskSlDefine :=
  { d with body := d.body ++ [(loc, t)] }

/-- Modelled from the spec: `gsk_sl_define_get_name`. -/
def gsk_sl_define_get_name (d : GskSlDefine) : String :=
  d.name

/-- The compiler state: the defines hash table, embedded as an
association list from macro name to `GskSlDefine`. -/
structure GskSlCompiler where
  defines : List (String × GskSlDefine)
deriving DecidableEq, Repr

/-- `gsk_sl_compiler_init`: the table starts empty. -/
def gsk_sl_compiler_init : GskSlCompiler :=
  { defines := [] }

/-- `g_hash_table_replace`: insert `(k, v)`, superseding any existing
entry with key `k`. -/
def hashTableReplace (t : List (String × GskSlDefine)) (k : String)
    (v : GskSlDefine) : List (String × GskSlDefine) :=
  (k, v) :: t.filter (fun p => !(p.1 == k))

/-- `g_hash_table_lookup`: the value stored under key `k`, if any. -/
def hashTableLookup (t : List (String × GskSlDefine)) (k : String) :
    Option GskSlDefine :=
  (t.find? (fun p => p.1 == k)).map (fun p => p.2)

/-- Modelled from the spec: valid-identifier test
(`gsk_sl_string_is_valid_identifier`, external): nonempty, first
character a letter or underscore, remaining characters letters, digits
or underscores. -/
def gsk_sl_string_is_valid_identifier (s : String) : Bool :=
  match s.data with
  | [] => false
  | c :: cs => (c.isAlpha || c == '_') && cs.all (fun d => d.isAlphanum || d == '_')

/-- The location tag produced by `g_prefix_error (real_error,
"%3zu:%2zu: ", location->lines + 1, location->line_bytes)`: the 1-based
line right-justified to width 3, a colon, the byte column right-justified
to width 2, then `": "`. -/
def padLeft (w : Nat) (s : String) : String :=
  if w ≤ s.length then s else String.mk (List.replicate (w - s.length) ' ') ++ s

/-- The full location tag `"%3zu:%2zu: "`. -/
def locTag (loc : GskCodeLocation) : String :=
  padLeft 3 (Nat.repr (loc.lines + 1)) ++ ":" ++ padLeft 2 (Nat.repr loc.line_bytes) ++ ": "

/-- `gsk_sl_compiler_add_define_error_func`: the tokenizer error
callback used while tokenizing a definition. Non-fatal diagnostics are
ignored; the first fatal diagnostic is copied into `real_error` with the
location tag prefixed; later fatal diagnostics are ignored because
`real_error` is already set. -/
def gsk_sl_compiler_add_define_error_func (real_error : Option GError)
    (dg : GskSlDiagnostic) : Option GError :=
  if !dg.fatal then
    real_error
  else
    match real_error with
    | some e => some e
    | none => some { domain := dg.error.domain, code := dg.error.code,
                     message := locTag dg.location ++ dg.error.message }

/-- All diagnostics of one read, folded through the error callback. -/
def processRead (real_error : Option GError) (diags : List GskSlDiagnostic) :
    Option GError :=
  diags.foldl gsk_sl_compiler_add_define_error_func real_error

/-- The token-reading loop of `gsk_sl_compiler_add_define` (lines
129–143): for each read, the callback processes the read's diagnostics;
a skippable token is discarded; EOF breaks the loop; any other token is
appended to the define together with the location captured before the
read. The loop terminates only at EOF (or when the stream is
exhausted). -/
def addDefineLoop : List TokenRead → GskSlDefine → Option GError →
    GskSlDefine × Option GError
  | [], define, real_error => (define, real_error)
  | r :: rest, define, real_error =>
    let real_error := processRead real_error r.diags
    if gsk_sl_token_is_skipped r.token then
      addDefineLoop rest define real_error
    else if gsk_sl_token_is_eof r.token then
      (define, real_error)
    else
      addDefineLoop rest (gsk_sl_define_add_token define r.location r.token) real_error

/-- `gsk_sl_compiler_add_define`. The external tokenizer is passed as a
function `tokenize` from the definition text to its sequence of reads.
Returns the new compiler state, the success flag, and the error (if
any). -/
def gsk_sl_compiler_add_define (tokenize : String → List TokenRead)
    (compiler : GskSlCompiler) (name : String) (definition : Option String) :
    GskSlCompiler × Bool × Option GError :=
  if !gsk_sl_string_is_valid_identifier name then
    (compiler, false,
     some { domain := G_FILE_ERROR, code := G_FILE_ERROR_FAILED,
            message := "Define name \"" ++ name ++ "\" is not a valid identifier" })
  else
    let definition := definition.getD "1"
    let stream := tokenize definition
    let result := addDefineLoop stream (gsk_sl_define_new name) none
    match result.2 with
    | none =>
      ({ defines := hashTableReplace compiler.defines
                      (gsk_sl_define_get_name result.1) result.1 },
       true, none)
    | some e => (compiler, false, some e)

/-- `gsk_sl_compiler_remove_define`: drop the entry under `name`;
absence is not an error. -/
def gsk_sl_compiler_remove_define (compiler : GskSlCompiler) (name : String) :
    GskSlCompiler :=
  { defines := compiler.defines.filter (fun p => !(p.1 == name)) }

/-- `gsk_sl_compiler_copy_defines`: iterate the table, inserting every
entry (same key, same define) into a fresh table. -/
def gsk_sl_compiler_copy_defines (compiler : GskSlCompiler) :
    List (String × GskSlDefine) :=
  compiler.defines.foldl (fun copy kv => hashTableReplace copy kv.1 kv.2) []

/-- A CodeSource: a display name plus either a backing file (a path) or
an in-memory byte buffer. -/
structure GskCodeSource where
  name : String
  file : Option String
  bytes : Option (List Nat)
deriving DecidableEq, Repr

/-- `gsk_code_source_new_for_file`. -/
def gsk_code_source_new_for_file (path : String) : GskCodeSource :=
  { name := path, file := some path, bytes := none }

/-- `gsk_code_source_new_for_bytes`. -/
def gsk_code_source_new_for_bytes (name : String) (b : List Nat) : GskCodeSource :=
  { name := name, file := none, bytes := some b }

/-- `gsk_code_source_get_file`: the backing file, if file-backed. -/
def gsk_code_source_get_file (s : GskCodeSource) : Option String :=
  s.file

/-- Modelled from the spec: the external GLib file layer used by
`resolve_include` — parent directory, relative-path resolution, and
loading a file's content (which either yields bytes or sets an
error). -/
structure FileSys where
  parent : String → String
  resolveRel : String → String → String
  load : String → Except GError (List Nat)
deriving Inhabited

/-- `gsk_sl_compiler_resolve_include` (lines 192–231). Returns the
resolved CodeSource (if any) and the error set (if any). -/
def gsk_sl_compiler_resolve_include (fs : FileSys) (source : GskCodeSource)
    (isLocal : Bool) (name : String) :
    Option GskCodeSource × Option GError :=
  if isLocal then
    match gsk_code_source_get_file source with
    | some source_file =>
      let file := fs.resolveRel (fs.parent source_file) name
      let result := gsk_code_source_new_for_file file
      match fs.load file with
      | Except.ok _ => (some result, none)
      | Except.error e => (none, some e)
    | none => (none, none)
  else
    (none,
     some { domain := G_FILE_ERROR, code := G_FILE_ERROR_EXIST,
            message := "Could not resolve \"" ++ name ++ "\" in search path." })

/-- An opaque parsed Program. -/
structure GskSlProgram where
  id : Nat
deriving DecidableEq, Repr

/-- Modelled from the spec: the external preprocessor/parser pipeline.
`parse` is the Program that `gsk_sl_program_parse` builds by consuming
the preprocessor constructed for (compiler, source); `hasFatalError` is
what `gsk_sl_preprocessor_has_fatal_error` answers after the parse drove
the preprocessor to completion. -/
structure PipelineEnv where
  parse : GskSlCompiler → GskCodeSource → GskSlProgram
  hasFatalError : GskSlCompiler → GskCodeSource → Bool

/-- `gsk_sl_compiler_compile` (lines 233–255): build the Program
optimistically, then discard it and return null if the preprocessor
recorded a fatal error. -/
def gsk_sl_compiler_compile (env : PipelineEnv) (compiler : GskSlCompiler)
    (source : GskCodeSource) : Option GskSlProgram :=
  let program := env.parse compiler source
  if env.hasFatalError compiler source then none else some program

/-- `gsk_sl_compiler_compile_file`: wrap the file in a file-backed
CodeSource and delegate. -/
def gsk_sl_compiler_compile_file (env : PipelineEnv) (compiler : GskSlCompiler)
    (file : String) : Option GskSlProgram :=
  gsk_sl_compiler_compile env compiler (gsk_code_source_new_for_file file)

/-- `gsk_sl_compiler_compile_bytes`: wrap the bytes in an in-memory
CodeSource tagged `"<program>"` and delegate. -/
def gsk_sl_compiler_compile_bytes (env : PipelineEnv) (compiler : GskSlCompiler)
    (b : List Nat) : Option GskSlProgram :=
  gsk_sl_compiler_compile env compiler (gsk_code_source_new_for_bytes "<program>" b)

/-- The reads the loop actually processes: every read up to and
including the first EOF read (all reads when no EOF occurs). -/
def processedReads : List TokenRead → List TokenRead
  | [] => []
  | r :: rest =>
    if gsk_sl_token_is_skipped r.token then r :: processedReads rest
    else if gsk_sl_token_is_eof r.token then [r]
    else r :: processedReads rest

/-- All diagnostics the loop feeds to the error callback, in order. -/
def processedDiags (stream : List TokenRead) : List GskSlDiagnostic :=
  ((processedReads stream).map (fun r => r.diags)).flatten

/-- The capture of a fatal diagnostic: the GError copied and prefixed
with the location tag, as the error callback builds it. -/
def captureDiag (dg : GskSlDiagnostic) : GError :=
  { domain := dg.error.domain, code := dg.error.code,
    message := locTag dg.location ++ dg.error.message }

/-- Spec-side description of the macro body: the tokenization truncated
at EOF, with all skippable tokens removed, each remaining token paired
with the location at which it starts. Written from the spec's words, to
be compared with what `addDefineLoop` builds. -/
def skipFilteredTokenization (stream : List TokenRead) :
    List (GskCodeLocation × GskSlToken) :=
  ((stream.takeWhile (fun r => !gsk_sl_token_is_eof r.token)).filter
      (fun r => !gsk_sl_token_is_skipped r.token)).map
    (fun r => (r.location, r.token))

/-- Key-of-a-table invariant used for claim C10: every entry's key is
exactly the name of the define it maps to. -/
def tableKeysMatchNames (t : List (String × GskSlDefine)) : Prop :=
  ∀ p ∈ t, p.2.name = p.1

/-- Distinctness of keys, the hash-table invariant of GHashTable. -/
def keysDistinct (t : List (String × GskSlDefine)) : Prop :=
  t.Pairwise (fun a b => a.1 ≠ b.1)

lemma processRead_some (e : GError) (l : List GskSlDiagnostic) :
    processRead (some e) l = some e := by
  induction l with
  | nil => rfl
  | cons dg rest ih =>
    simp only [processRead, List.foldl_cons] at *
    have : gsk_sl_compiler_add_define_error_func (some e) dg = some e := by
      unfold gsk_sl_compiler_add_define_error_func
      cases dg.fatal <;> simp
    rw [this, ih]

lemma processRead_none (l : List GskSlDiagnostic) :
    processRead none l = (l.find? (fun dg => dg.fatal)).map captureDiag := by
  induction l with
  | nil => rfl
  | cons dg rest ih =>
    simp only [processRead, List.foldl_cons]
    by_cases h : dg.fatal = true
    · have hcb : gsk_sl_compiler_add_define_error_func none dg = some (captureDiag dg) := by
        unfold gsk_sl_compiler_add_define_error_func captureDiag
        simp [h]
      rw [hcb]
      have := processRead_some (captureDiag dg) rest
      simp only [processRead] at this
      rw [this, List.find?_cons_of_pos _ h]
      rfl
    · have hf : dg.fatal = false := by simpa using h
      have hcb : gsk_sl_compiler_add_define_error_func none dg = none := by
        unfold gsk_sl_compiler_add_define_error_func
        simp [hf]
      rw [hcb]
      simp only [processRead] at ih
      rw [ih, List.find?_cons_of_neg]
      simp [hf]

lemma processRead_append (err : Option GError) (l₁ l₂ : List GskSlDiagnostic) :
    processRead err (l₁ ++ l₂) = processRead (processRead err l₁) l₂ := by
  simp [processRead, List.foldl_append]

/-- The loop's error result is exactly the fold of the error callback
over every diagnostic of every processed read. -/
lemma addDefineLoop_error (stream : List TokenRead) :
    ∀ (define : GskSlDefine) (err : Option GError),
      (addDefineLoop stream define err).2 = processRead err (processedDiags stream) := by
  induction stream with
  | nil => intro define err; rfl
  | cons r rest ih =>
    intro define err
    unfold addDefineLoop processedDiags processedReads
    by_cases hs : gsk_sl_token_is_skipped r.token = true
    · simp only [hs, if_true, ih]
      simp [processedDiags, processRead_append]
    · have hs' : gsk_sl_token_is_skipped r.token = false := by simpa using hs
      by_cases he : gsk_sl_token_is_eof r.token = true
      · simp [hs', he, processRead_append]
      · have he' : gsk_sl_token_is_eof r.token = false := by simpa using he
        simp only [hs', he', if_false, Bool.false_eq_true, ih]
        simp [processedDiags, processRead_append]

/-- The loop's define result: the incoming define extended with the
skip-filtered tokenization, independent of any diagnostics. -/
lemma addDefineLoop_define (stream : List TokenRead) :
    ∀ (define : GskSlDefine) (err : Option GError),
      (addDefineLoop stream define err).1
        = { name := define.name, body := define.body ++ skipFilteredTokenization stream } := by
  induction stream with
  | nil =>
    intro define err
    simp [addDefineLoop, skipFilteredTokenization]
  | cons r rest ih =>
    intro define err
    unfold addDefineLoop
    by_cases hs : gsk_sl_token_is_skipped r.token = true
    · have he : gsk_sl_token_is_eof r.token = false := by
        unfold gsk_sl_token_is_skipped at hs
        unfold gsk_sl_token_is_eof
        cases h : r.token.kind <;> simp [h] at hs ⊢
      simp only [hs, if_true, ih]
      simp [skipFilteredTokenization, he, hs]
    · have hs' : gsk_sl_token_is_skipped r.token = false := by simpa using hs
      by_cases he : gsk_sl_token_is_eof r.token = true
      · simp [hs', he, skipFilteredTokenization]
      · have he' : gsk_sl_token_is_eof r.token = false := by simpa using he
        simp only [hs', he', if_false, Bool.false_eq_true, ih]
        simp [skipFilteredTokenization, he', hs', gsk_sl_define_add_token]

lemma hashTableLookup_nil (k : String) : hashTableLookup [] k = none := rfl

lemma hashTableLookup_replace_self (t : List (String × GskSlDefine))
    (k : String) (v : GskSlDefine) :
    hashTableLookup (hashTableReplace t k v) k = some v := by
  simp [hashTableLookup, hashTableReplace, List.find?_cons_of_pos]

lemma find?_filter_other (t : List (String × GskSlDefine)) (k k' : String)
    (h : ¬ k = k') :
    (t.filter (fun p => !(p.1 == k))).find? (fun p => p.1 == k')
      = t.find? (fun p => p.1 == k') := by
  induction t with
  | nil => rfl
  | cons p rest ih =>
    rw [List.filter_cons]
    by_cases hp : p.1 = k
    · rw [if_neg (by simp [hp]), ih,
        List.find?_cons_of_neg _ (by rw [beq_iff_eq, hp]; exact h)]
    · rw [if_pos (by simp [hp])]
      by_cases hq : p.1 = k'
      · rw [List.find?_cons_of_pos _ (by rw [beq_iff_eq]; exact hq),
          List.find?_cons_of_pos _ (by rw [beq_iff_eq]; exact hq)]
      · rw [List.find?_cons_of_neg _ (by rw [beq_iff_eq]; exact hq),
          List.find?_cons_of_neg _ (by rw [beq_iff_eq]; exact hq), ih]

lemma hashTableLookup_replace_ne (t : List (String × GskSlDefine))
    (k k' : String) (v : GskSlDefine) (h : k' ≠ k) :
    hashTableLookup (hashTableReplace t k v) k' = hashTableLookup t k' := by
  unfold hashTableLookup hashTableReplace
  rw [List.find?_cons_of_neg _ (by rw [beq_iff_eq]; exact fun hh => h hh.symm)]
  rw [find?_filter_other t k k' (fun hh => h hh.symm)]

lemma keysDistinct_replace (t : List (String × GskSlDefine))
    (k : String) (v : GskSlDefine) (h : keysDistinct t) :
    keysDistinct (hashTableReplace t k v) := by
  unfold keysDistinct hashTableReplace
  refine List.Pairwise.cons ?_ ?_
  · intro q hq
    have := List.of_mem_filter hq
    intro hkq
    simp [← hkq] at this
  · exact List.Pairwise.filter _ h

lemma keysDistinct_remove (c : GskSlCompiler) (name : String)
    (h : keysDistinct c.defines) :
    keysDistinct (gsk_sl_compiler_remove_define c name).defines := by
  unfold keysDistinct gsk_sl_compiler_remove_define
  exact List.Pairwise.filter _ h

/-- Folding `hashTableReplace` over a distinct-keyed list looks up the
same as the list itself, falling back to the accumulator. -/
lemma foldl_replace_lookup (l : List (String × GskSlDefine)) :
    ∀ (acc : List (String × GskSlDefine)) (k : String),
      l.Pairwise (fun a b => a.1 ≠ b.1) →
      hashTableLookup (l.foldl (fun copy kv => hashTableReplace copy kv.1 kv.2) acc) k
        = match l.find? (fun p => p.1 == k) with
          | some p => some p.2
          | none => hashTableLookup acc k := by
  induction l with
  | nil => intro acc k _; rfl
  | cons p rest ih =>
    intro acc k hpw
    rcases List.pairwise_cons.mp hpw with ⟨hhead, htail⟩
    simp only [List.foldl_cons]
    rw [ih _ k htail]
    by_cases hk : p.1 = k
    · have hfind : rest.find? (fun q => q.1 == k) = none := by
        rw [List.find?_eq_none]
        intro q hq
        rw [← hk]
        simp only [beq_iff_eq]
        exact fun hh => (hhead q hq) hh.symm
      rw [hfind, List.find?_cons_of_pos _ (by simp [hk])]
      simp only
      rw [← hk, hashTableLookup_replace_self]
    · rw [List.find?_cons_of_neg _ (by simp [hk])]
      cases hfind : rest.find? (fun q => q.1 == k) with
      | some q => simp
      | none =>
        simp only
        exact hashTableLookup_replace_ne acc p.1 k p.2 (fun hh => hk hh.symm)

/-- `copy_defines` preserves every lookup of a distinct-keyed table. -/
lemma copy_defines_lookup (c : GskSlCompiler) (h : keysDistinct c.defines)
    (k : String) :
    hashTableLookup (gsk_sl_compiler_copy_defines c) k = hashTableLookup c.defines k := by
  unfold gsk_sl_compiler_copy_defines
  rw [foldl_replace_lookup c.defines [] k h]
  unfold hashTableLookup
  cases hfind : c.defines.find? (fun p => p.1 == k) <;> simp [hfind]

lemma tableKeysMatchNames_replace (t : List (String × GskSlDefine))
    (k : String) (v : GskSlDefine) (h : tableKeysMatchNames t) (hv : v.name = k) :
    tableKeysMatchNames (hashTableReplace t k v) := by
  intro p hp
  rcases List.mem_cons.mp hp with hp | hp
  · rw [hp]; exact hv
  · exact h p (List.mem_of_mem_filter hp)

lemma tableKeysMatchNames_foldl (l : List (String × GskSlDefine)) :
    ∀ (acc : List (String × GskSlDefine)),
      tableKeysMatchNames acc → (∀ q ∈ l, q.2.name = q.1) →
      tableKeysMatchNames (l.foldl (fun copy kv => hashTableReplace copy kv.1 kv.2) acc) := by
  induction l with
  | nil => intro acc hacc _; exact hacc
  | cons p rest ih =>
    intro acc hacc hl
    simp only [List.foldl_cons]
    refine ih _ (tableKeysMatchNames_replace acc p.1 p.2 hacc ?_) ?_
    · exact hl p (List.mem_cons_self p rest)
    · intro q hq; exact hl q (List.mem_cons_of_mem p hq)

/-- `add_define` on an invalid identifier: error out before any
tokenization, leaving the table untouched. -/
lemma add_define_invalid (tokenize : String → List TokenRead)
    (c : GskSlCompiler) (name : String) (d : Option String)
    (h : gsk_sl_string_is_valid_identifier name = false) :
    gsk_sl_compiler_add_define tokenize c name d
      = (c, false,
         some { domain := G_FILE_ERROR, code := G_FILE_ERROR_FAILED,
                message := "Define name \"" ++ name ++ "\" is not a valid identifier" }) := by
  unfold gsk_sl_compiler_add_define
  rw [if_pos (by simp [h])]

/-- `add_define` when no fatal diagnostic occurs: insert the define
built from the skip-filtered tokenization under the name. -/
lemma add_define_ok (tokenize : String → List TokenRead)
    (c : GskSlCompiler) (name : String) (d : Option String)
    (hval : gsk_sl_string_is_valid_identifier name = true)
    (hnf : (processedDiags (tokenize (d.getD "1"))).find? (fun dg => dg.fatal) = none) :
    gsk_sl_compiler_add_define tokenize c name d
      = ({ defines := hashTableReplace c.defines name
             { name := name, body := skipFilteredTokenization (tokenize (d.getD "1")) } },
         true, none) := by
  have h2 := addDefineLoop_error (tokenize (d.getD "1")) (gsk_sl_define_new name) none
  rw [processRead_none, hnf, Option.map_none'] at h2
  have h1 := addDefineLoop_define (tokenize (d.getD "1")) (gsk_sl_define_new name) none
  unfold gsk_sl_compiler_add_define
  rw [if_neg (by simp [hval])]
  simp only []
  rw [h2, h1]
  rfl

/-- `add_define` when a fatal diagnostic occurs: the table is left
unchanged and the first captured fatal diagnostic is propagated. -/
lemma add_define_fatal_eq (tokenize : String → List TokenRead)
    (c : GskSlCompiler) (name : String) (d : Option String) (dg : GskSlDiagnostic)
    (hval : gsk_sl_string_is_valid_identifier name = true)
    (hf : (processedDiags (tokenize (d.getD "1"))).find? (fun x => x.fatal) = some dg) :
    gsk_sl_compiler_add_define tokenize c name d = (c, false, some (captureDiag dg)) := by
  have h2 := addDefineLoop_error (tokenize (d.getD "1")) (gsk_sl_define_new name) none
  rw [processRead_none, hf, Option.map_some'] at h2
  unfold gsk_sl_compiler_add_define
  rw [if_neg (by simp [hval])]
  simp only []
  rw [h2]

/-- Claim C1: for every compile call (via `compile_file` or
`compile_bytes`), if the preprocessor recorded a fatal error the
optimistically built Program is discarded and null is returned; when no
fatal error was recorded, the built Program is returned non-null, so the
Compiler never returns a partially valid Program. -/
theorem claim_C1_compile_no_partial_program (env : PipelineEnv) (c : GskSlCompiler)
    (src : GskCodeSource) (f : String) (b : List Nat) :
    (gsk_sl_compiler_compile env c src = none ↔ env.hasFatalError c src = true)
    ∧ (gsk_sl_compiler_compile env c src = some (env.parse c src)
        ↔ env.hasFatalError c src = false)
    ∧ (gsk_sl_compiler_compile_file env c f = none
        ↔ env.hasFatalError c (gsk_code_source_new_for_file f) = true)
    ∧ (gsk_sl_compiler_compile_bytes env c b = none
        ↔ env.hasFatalError c (gsk_code_source_new_for_bytes "<program>" b) = true) := by
  refine ⟨?_, ?_, ?_, ?_⟩
  · cases h : env.hasFatalError c src <;> simp [gsk_sl_compiler_compile, h]
  · cases h : env.hasFatalError c src <;> simp [gsk_sl_compiler_compile, h]
  · cases h : env.hasFatalError c (gsk_code_source_new_for_file f) <;>
      simp [gsk_sl_compiler_compile_file, gsk_sl_compiler_compile, h]
  · cases h : env.hasFatalError c (gsk_code_source_new_for_bytes "<program>" b) <;>
      simp [gsk_sl_compiler_compile_bytes, gsk_sl_compiler_compile, h]

/-- Claim C5: `resolve_include(base, local=false, name)` returns no
CodeSource and fails with a "could not resolve in search path" error
carrying the requested name, regardless of base or name. -/
theorem claim_C5_resolve_nonlocal_always_fails (fs : FileSys)
    (src : GskCodeSource) (n : String) :
    gsk_sl_compiler_resolve_include fs src false n
      = (none,
         some { domain := G_FILE_ERROR, code := G_FILE_ERROR_EXIST,
                message := "Could not resolve \"" ++ n ++ "\" in search path." }) := by
  rfl

/-- Claim C2: for every valid identifier `n` and definition `d` whose
tokenization produces no fatal error, `add_define(n, d)` succeeds and
afterwards the defines table — and a subsequent `copy_defines()` — maps
`n` to a MacroDefinition whose body is the tokenization of `d` with all
skippable tokens removed, each stored token paired with the location at
which it starts, the terminating EOF not stored. -/
theorem claim_C2_add_define_success (tokenize : String → List TokenRead)
    (c : GskSlCompiler) (n : String) (d : String)
    (hval : gsk_sl_string_is_valid_identifier n = true)
    (hnf : (processedDiags (tokenize d)).find? (fun dg => dg.fatal) = none)
    (hkeys : keysDistinct c.defines) :
    (gsk_sl_compiler_add_define tokenize c n (some d)).2.1 = true
    ∧ hashTableLookup (gsk_sl_compiler_add_define tokenize c n (some d)).1.defines n
        = some { name := n, body := skipFilteredTokenization (tokenize d) }
    ∧ hashTableLookup
        (gsk_sl_compiler_copy_defines (gsk_sl_compiler_add_define tokenize c n (some d)).1) n
        = some { name := n, body := skipFilteredTokenization (tokenize d) } := by
  have hok := add_define_ok tokenize c n (some d) hval (by simpa using hnf)
  rw [hok]
  refine ⟨rfl, ?_, ?_⟩
  · simpa using hashTableLookup_replace_self c.defines n _
  · have hdk : keysDistinct (hashTableReplace c.defines n
        { name := n, body := skipFilteredTokenization (tokenize d) }) :=
      keysDistinct_replace c.defines n _ hkeys
    show hashTableLookup (gsk_sl_compiler_copy_defines
      { defines := hashTableReplace c.defines n
          { name := n, body := skipFilteredTokenization (tokenize d) } }) n = _
    rw [copy_defines_lookup
      { defines := hashTableReplace c.defines n
          { name := n, body := skipFilteredTokenization (tokenize d) } } hdk n]
    simpa using hashTableLookup_replace_self c.defines n _

/-- Claim C3: if tokenizing the definition reports a fatal diagnostic,
`add_define` fails, the table is left unchanged, and the propagated
error is the first captured fatal diagnostic, its message prefixed with
`"<line>:<col>: "` where `<line>` is the stored 0-based line plus 1
right-justified to width 3 and `<col>` the stored byte column
right-justified to width 2. -/
theorem claim_C3_add_define_fatal (tokenize : String → List TokenRead)
    (c : GskSlCompiler) (n : String) (d : String) (dg : GskSlDiagnostic)
    (hval : gsk_sl_string_is_valid_identifier n = true)
    (hf : (processedDiags (tokenize d)).find? (fun x => x.fatal) = some dg) :
    gsk_sl_compiler_add_define tokenize c n (some d)
      = (c, false,
         some { domain := dg.error.domain, code := dg.error.code,
                message := padLeft 3 (Nat.repr (dg.location.lines + 1)) ++ ":"
                  ++ padLeft 2 (Nat.repr dg.location.line_bytes) ++ ": "
                  ++ dg.error.message }) := by
  rw [add_define_fatal_eq tokenize c n (some d) dg hval (by simpa using hf)]
  rfl

/-- Claim C8: for every name that is not a valid identifier,
`add_define` fails with the invalid-identifier error for every
definition, the table is left completely unchanged, and the result does
not depend on the tokenizer or the definition (no tokenization is
attempted). -/
theorem claim_C8_invalid_identifier (tokenize tokenize' : String → List TokenRead)
    (c : GskSlCompiler) (n : String) (d d' : Option String)
    (h : gsk_sl_string_is_valid_identifier n = false) :
    gsk_sl_compiler_add_define tokenize c n d
      = (c, false,
         some { domain := G_FILE_ERROR, code := G_FILE_ERROR_FAILED,
                message := "Define name \"" ++ n ++ "\" is not a valid identifier" })
    ∧ gsk_sl_compiler_add_define tokenize c n d
        = gsk_sl_compiler_add_define tokenize' c n d' := by
  refine ⟨add_define_invalid tokenize c n d h, ?_⟩
  rw [add_define_invalid tokenize c n d h, add_define_invalid tokenize' c n d' h]

lemma remove_define_lookup_self (c : GskSlCompiler) (n : String) :
    hashTableLookup (gsk_sl_compiler_remove_define c n).defines n = none := by
  unfold gsk_sl_compiler_remove_define hashTableLookup
  have : (c.defines.filter (fun p => !(p.1 == n))).find? (fun p => p.1 == n) = none := by
    rw [List.find?_eq_none]
    intro p hp
    have := List.of_mem_filter hp
    simp only [Bool.not_eq_true'] at this
    simp [this]
  rw [this]
  rfl

/-- Claim C4: `copy_defines` produces a mapping that agrees with the
Compiler's table at every key (sharing the same MacroDefinition values);
a snapshot taken before a redefinition still maps the redefined name to
the old MacroDefinition, while the mutated table maps it to the new one;
removal likewise only changes the table it is applied to. -/
theorem claim_C4_copy_independence (tokenize : String → List TokenRead)
    (c : GskSlCompiler) (n : String) (d : String)
    (hkeys : keysDistinct c.defines)
    (hval : gsk_sl_string_is_valid_identifier n = true)
    (hnf : (processedDiags (tokenize d)).find? (fun dg => dg.fatal) = none) :
    (∀ k, hashTableLookup (gsk_sl_compiler_copy_defines c) k = hashTableLookup c.defines k)
    ∧ hashTableLookup (gsk_sl_compiler_add_define tokenize c n (some d)).1.defines n
        = some { name := n, body := skipFilteredTokenization (tokenize d) }
    ∧ hashTableLookup (gsk_sl_compiler_copy_defines c) n = hashTableLookup c.defines n
    ∧ (∀ k, k ≠ n →
        hashTableLookup (gsk_sl_compiler_add_define tokenize c n (some d)).1.defines k
          = hashTableLookup c.defines k)
    ∧ hashTableLookup (gsk_sl_compiler_remove_define c n).defines n = none := by
  have hok := add_define_ok tokenize c n (some d) hval (by simpa using hnf)
  refine ⟨fun k => copy_defines_lookup c hkeys k, ?_, copy_defines_lookup c hkeys n, ?_, remove_define_lookup_self c n⟩
  · rw [hok]
    simpa using hashTableLookup_replace_self c.defines n _
  · intro k hk
    rw [hok]
    simpa using hashTableLookup_replace_ne c.defines n k _ hk

/-- A concrete file system for witnesses: every load fails. -/
def fs0 : FileSys :=
  { parent := fun s => s,
    resolveRel := fun p n => p ++ "/" ++ n,
    load := fun f => Except.error
      { domain := G_FILE_ERROR, code := 4, message := "No such file: " ++ f } }

/-- Claim C6 (counterexample): on an in-memory (non-file-backed) base
source, a local include resolution returns no CodeSource and also sets
no error — the caller does observe a null result with no error set,
contradicting the claim. -/
theorem claim_C6_counterexample :
    gsk_sl_compiler_resolve_include fs0
        (gsk_code_source_new_for_bytes "<program>" []) true "foo.glsl"
      = (none, none) := by
  rfl

/-- Claim C6 (amended): for every base source that is not file-backed,
`resolve_include(base, local=true, name)` returns no CodeSource and
supplies no failure indication at all: the error is left unset, and the
caller must treat a null result with no error as "cannot resolve". -/
theorem claim_C6_amended_silent_failure (fs : FileSys) (src : GskCodeSource)
    (n : String) (h : src.file = none) :
    gsk_sl_compiler_resolve_include fs src true n = (none, none) := by
  simp [gsk_sl_compiler_resolve_include, gsk_code_source_get_file, h]

theorem claim_C6_amended_witness :
    gsk_sl_compiler_resolve_include fs0
        (gsk_code_source_new_for_bytes "<program>" [1, 2]) true "a.glsl"
      = (none, none) :=
  claim_C6_amended_silent_failure fs0 (gsk_code_source_new_for_bytes "<program>" [1, 2])
    "a.glsl" rfl

/-- A concrete ordinary-token read at line 0, byte 0. -/
def readNum : TokenRead :=
  { location := { lines := 0, line_bytes := 0 }, diags := [],
    token := { kind := GskSlTokenKind.normal 1 } }

/-- A concrete skippable read (whitespace) at line 0, byte 1. -/
def readSkip : TokenRead :=
  { location := { lines := 0, line_bytes := 1 }, diags := [],
    token := { kind := GskSlTokenKind.skipped 0 } }

/-- A second concrete ordinary-token read at line 0, byte 2. -/
def readNum2 : TokenRead :=
  { location := { lines := 0, line_bytes := 2 }, diags := [],
    token := { kind := GskSlTokenKind.normal 2 } }

/-- A concrete EOF read at line 0, byte 3. -/
def readEnd : TokenRead :=
  { location := { lines := 0, line_bytes := 3 }, diags := [],
    token := { kind := GskSlTokenKind.eof } }

/-- A concrete fatal diagnostic at line 0, byte 5. -/
def dgFatal : GskSlDiagnostic :=
  { fatal := true, location := { lines := 0, line_bytes := 5 },
    error := { domain := "gsk-sl-tokenizer-error", code := 1, message := "bad token" } }

/-- A read that reports a fatal diagnostic and yields an ordinary token. -/
def readBad : TokenRead :=
  { location := { lines := 0, line_bytes := 4 }, diags := [dgFatal],
    token := { kind := GskSlTokenKind.normal 3 } }

/-- An ordinary read occurring after the fatal one. -/
def readAfter : TokenRead :=
  { location := { lines := 0, line_bytes := 6 }, diags := [],
    token := { kind := GskSlTokenKind.normal 4 } }

/-- A concrete tokenizer with no diagnostics: token, whitespace, token, EOF. -/
def tokGood : String → List TokenRead :=
  fun _ => [readNum, readSkip, readNum2, readEnd]

/-- A concrete tokenizer whose first read reports a fatal diagnostic. -/
def tokBad : String → List TokenRead :=
  fun _ => [readBad, readAfter, readEnd]

/-- A concrete one-entry compiler state. -/
def c1 : GskSlCompiler :=
  { defines := [("BAR", { name := "BAR", body := [] })] }

theorem claim_C2_witness :
    (gsk_sl_compiler_add_define tokGood gsk_sl_compiler_init "FOO" (some "12")).2.1 = true
    ∧ hashTableLookup
        (gsk_sl_compiler_add_define tokGood gsk_sl_compiler_init "FOO" (some "12")).1.defines "FOO"
        = some { name := "FOO", body := skipFilteredTokenization (tokGood "12") }
    ∧ hashTableLookup
        (gsk_sl_compiler_copy_defines
          (gsk_sl_compiler_add_define tokGood gsk_sl_compiler_init "FOO" (some "12")).1) "FOO"
        = some { name := "FOO", body := skipFilteredTokenization (tokGood "12") } :=
  claim_C2_add_define_success tokGood gsk_sl_compiler_init "FOO" "12"
    (by decide) (by decide) List.Pairwise.nil

theorem claim_C3_witness :
    gsk_sl_compiler_add_define tokBad gsk_sl_compiler_init "FOO" (some "x")
      = (gsk_sl_compiler_init, false,
         some { domain := dgFatal.error.domain, code := dgFatal.error.code,
                message := padLeft 3 (Nat.repr (dgFatal.location.lines + 1)) ++ ":"
                  ++ padLeft 2 (Nat.repr dgFatal.location.line_bytes) ++ ": "
                  ++ dgFatal.error.message }) :=
  claim_C3_add_define_fatal tokBad gsk_sl_compiler_init "FOO" "x" dgFatal
    (by decide) (by decide)

theorem claim_C4_witness :
    hashTableLookup (gsk_sl_compiler_copy_defines c1) "BAR" = hashTableLookup c1.defines "BAR"
    ∧ hashTableLookup (gsk_sl_compiler_add_define tokGood c1 "BAR" (some "12")).1.defines "BAR"
        = some { name := "BAR", body := skipFilteredTokenization (tokGood "12") }
    ∧ hashTableLookup (gsk_sl_compiler_add_define tokGood c1 "BAR" (some "12")).1.defines "BAZ"
        = hashTableLookup c1.defines "BAZ"
    ∧ hashTableLookup (gsk_sl_compiler_remove_define c1 "BAR").defines "BAR" = none := by
  have h := claim_C4_copy_independence tokGood c1 "BAR" "12"
    (by simp [keysDistinct, c1]) (by decide) (by decide)
  exact ⟨h.1 "BAR", h.2.1, h.2.2.2.1 "BAZ" (by decide), h.2.2.2.2⟩

theorem claim_C8_witness :
    gsk_sl_compiler_add_define tokGood gsk_sl_compiler_init "1bad" (some "x")
      = (gsk_sl_compiler_init, false,
         some { domain := G_FILE_ERROR, code := G_FILE_ERROR_FAILED,
                message := "Define name \"" ++ "1bad" ++ "\" is not a valid identifier" })
    ∧ gsk_sl_compiler_add_define tokGood gsk_sl_compiler_init "1bad" (some "x")
        = gsk_sl_compiler_add_define tokBad gsk_sl_compiler_init "1bad" none :=
  claim_C8_invalid_identifier tokGood tokBad gsk_sl_compiler_init "1bad"
    (some "x") none (by decide)

/-- Claim C7 (counterexample): the invalid-identifier error surfaced by
`add_define` lies in the GLib file-error domain, which differs from both
the registered compiler-level error domain and the warning domain — so
the compiler-level error domain does not carry the invalid-identifier
error. -/
theorem claim_C7_counterexample :
    ((gsk_sl_compiler_add_define tokGood gsk_sl_compiler_init "1bad" none).2.2).map GError.domain
      = some G_FILE_ERROR
    ∧ G_FILE_ERROR ≠ GSK_SL_COMPILER_ERROR
    ∧ G_FILE_ERROR ≠ GSK_SL_COMPILER_WARNING := by
  refine ⟨?_, ?_, ?_⟩ <;> decide

/-- Claim C7 (amended): two distinct quark domains (compiler-error and
compiler-warning) are registered, but the invalid-identifier error of
`add_define` and the include-not-found error of `resolve_include` are
both raised in the GLib file-error domain — with codes
`G_FILE_ERROR_FAILED` and `G_FILE_ERROR_EXIST` respectively — not in the
compiler-level domain; callers distinguish these two diagnostics by
their code within that one domain, not by domain. -/
theorem claim_C7_amended_error_domains (tokenize : String → List TokenRead)
    (c : GskSlCompiler) (fs : FileSys) (src : GskCodeSource)
    (bad n : String) (d : Option String)
    (hinv : gsk_sl_string_is_valid_identifier bad = false) :
    GSK_SL_COMPILER_ERROR ≠ GSK_SL_COMPILER_WARNING
    ∧ G_FILE_ERROR ≠ GSK_SL_COMPILER_ERROR
    ∧ ((gsk_sl_compiler_add_define tokenize c bad d).2.2).map GError.domain = some G_FILE_ERROR
    ∧ ((gsk_sl_compiler_add_define tokenize c bad d).2.2).map GError.code = some G_FILE_ERROR_FAILED
    ∧ ((gsk_sl_compiler_resolve_include fs src false n).2).map GError.domain = some G_FILE_ERROR
    ∧ ((gsk_sl_compiler_resolve_include fs src false n).2).map GError.code = some G_FILE_ERROR_EXIST := by
  rw [add_define_invalid tokenize c bad d hinv]
  exact ⟨by decide, by decide, rfl, rfl, rfl, rfl⟩

theorem claim_C7_amended_witness :
    GSK_SL_COMPILER_ERROR ≠ GSK_SL_COMPILER_WARNING
    ∧ G_FILE_ERROR ≠ GSK_SL_COMPILER_ERROR
    ∧ ((gsk_sl_compiler_add_define tokGood c1 "1bad" none).2.2).map GError.domain
        = some G_FILE_ERROR
    ∧ ((gsk_sl_compiler_add_define tokGood c1 "1bad" none).2.2).map GError.code
        = some G_FILE_ERROR_FAILED
    ∧ ((gsk_sl_compiler_resolve_include fs0
          (gsk_code_source_new_for_bytes "<program>" []) false "x.h").2).map GError.domain
        = some G_FILE_ERROR
    ∧ ((gsk_sl_compiler_resolve_include fs0
          (gsk_code_source_new_for_bytes "<program>" []) false "x.h").2).map GError.code
        = some G_FILE_ERROR_EXIST :=
  claim_C7_amended_error_domains tokGood c1 fs0
    (gsk_code_source_new_for_bytes "<program>" []) "1bad" "x.h" none (by decide)

/-- Claim C9 (counterexample): a fatal diagnostic is reported during the
first read, and the captured error is its capture — yet the loop still
reads the following token and appends it to the MacroDefinition being
built: the body ends up containing the token of the read that happened
after the fatal diagnostic, refuting "no further tokens are read … and
no further tokens are appended". -/
theorem claim_C9_counterexample :
    (addDefineLoop [readBad, readAfter, readEnd] (gsk_sl_define_new "A") none).2
      = some (captureDiag dgFatal)
    ∧ (addDefineLoop [readBad, readAfter, readEnd] (gsk_sl_define_new "A") none).1.body
      = [(readBad.location, readBad.token), (readAfter.location, readAfter.token)] := by
  refine ⟨?_, ?_⟩ <;> decide

/-- Claim C9 (amended): a fatal tokenizer diagnostic does not abort the
read loop — the loop continues reading and appending tokens until EOF,
and its body is always the full skip-filtered tokenization regardless of
diagnostics; instead, the first fatal diagnostic is captured (later
fatal and all non-fatal diagnostics are ignored) and the operation as a
whole fails, discarding the built MacroDefinition and leaving the table
unchanged. -/
theorem claim_C9_amended_fatal_not_aborting (tokenize : String → List TokenRead)
    (c : GskSlCompiler) (n d : String) (stream : List TokenRead) (dg : GskSlDiagnostic)
    (hval : gsk_sl_string_is_valid_identifier n = true)
    (hf : (processedDiags (tokenize d)).find? (fun x => x.fatal) = some dg) :
    (addDefineLoop stream (gsk_sl_define_new n) none).1.body = skipFilteredTokenization stream
    ∧ (addDefineLoop stream (gsk_sl_define_new n) none).2
        = ((processedDiags stream).find? (fun x => x.fatal)).map captureDiag
    ∧ (gsk_sl_compiler_add_define tokenize c n (some d)).1 = c
    ∧ (gsk_sl_compiler_add_define tokenize c n (some d)).2.1 = false := by
  have hfe := add_define_fatal_eq tokenize c n (some d) dg hval (by simpa using hf)
  refine ⟨?_, ?_, ?_, ?_⟩
  · rw [addDefineLoop_define]
    simp [gsk_sl_define_new]
  · rw [addDefineLoop_error, processRead_none]
  · rw [hfe]
  · rw [hfe]

theorem claim_C9_amended_witness :
    (addDefineLoop [readBad, readAfter, readEnd] (gsk_sl_define_new "FOO") none).1.body
        = skipFilteredTokenization [readBad, readAfter, readEnd]
    ∧ (addDefineLoop [readBad, readAfter, readEnd] (gsk_sl_define_new "FOO") none).2
        = ((processedDiags [readBad, readAfter, readEnd]).find? (fun x => x.fatal)).map captureDiag
    ∧ (gsk_sl_compiler_add_define tokBad gsk_sl_compiler_init "FOO" (some "x")).1
        = gsk_sl_compiler_init
    ∧ (gsk_sl_compiler_add_define tokBad gsk_sl_compiler_init "FOO" (some "x")).2.1 = false :=
  claim_C9_amended_fatal_not_aborting tokBad gsk_sl_compiler_init "FOO" "x"
    [readBad, readAfter, readEnd] dgFatal (by decide) (by decide)

lemma tableKeysMatchNames_add_define (tokenize : String → List TokenRead)
    (c : GskSlCompiler) (n : String) (d : Option String)
    (h : tableKeysMatchNames c.defines) :
    tableKeysMatchNames (gsk_sl_compiler_add_define tokenize c n d).1.defines := by
  by_cases hv : gsk_sl_string_is_valid_identifier n = true
  · cases hfind : (processedDiags (tokenize (d.getD "1"))).find? (fun x => x.fatal) with
    | none =>
      rw [add_define_ok tokenize c n d hv (by simpa using hfind)]
      exact tableKeysMatchNames_replace c.defines n _ h rfl
    | some dg =>
      rw [add_define_fatal_eq tokenize c n d dg hv hfind]
      exact h
  · have hv' : gsk_sl_string_is_valid_identifier n = false := by simpa using hv
    rw [add_define_invalid tokenize c n d hv']
    exact h

/-- Claim C10: every operation keeps the invariant that each key in the
defines table (and in every table produced by `copy_defines`) is exactly
the name of the MacroDefinition it maps to, so looking up a stored key
yields a define whose name equals the key. -/
theorem claim_C10_table_key_is_define_name (tokenize : String → List TokenRead)
    (c : GskSlCompiler) (n n' : String) (d : Option String)
    (h : tableKeysMatchNames c.defines) :
    tableKeysMatchNames gsk_sl_compiler_init.defines
    ∧ tableKeysMatchNames (gsk_sl_compiler_add_define tokenize c n d).1.defines
    ∧ tableKeysMatchNames (gsk_sl_compiler_remove_define c n').defines
    ∧ tableKeysMatchNames (gsk_sl_compiler_copy_defines c)
    ∧ (∀ k v, hashTableLookup c.defines k = some v → v.name = k) := by
  refine ⟨?_, tableKeysMatchNames_add_define tokenize c n d h, ?_, ?_, ?_⟩
  · intro p hp
    exact absurd hp (List.not_mem_nil p)
  · intro p hp
    exact h p (List.mem_of_mem_filter hp)
  · exact tableKeysMatchNames_foldl c.defines []
      (fun p hp => absurd hp (List.not_mem_nil p)) h
  · intro k v hkv
    unfold hashTableLookup at hkv
    cases hfind : c.defines.find? (fun p => p.1 == k) with
    | none =>
      rw [hfind] at hkv
      cases hkv
    | some p =>
      rw [hfind, Option.map_some'] at hkv
      have hp := List.mem_of_find?_eq_some hfind
      have hpred := List.find?_some hfind
      have hv : p.2 = v := Option.some.inj hkv
      rw [← hv, h p hp]
      exact beq_iff_eq.mp (by simpa using hpred)

theorem claim_C10_witness :
    tableKeysMatchNames gsk_sl_compiler_init.defines
    ∧ tableKeysMatchNames (gsk_sl_compiler_add_define tokGood c1 "FOO" (some "12")).1.defines
    ∧ tableKeysMatchNames (gsk_sl_compiler_remove_define c1 "BAR").defines
    ∧ tableKeysMatchNames (gsk_sl_compiler_copy_defines c1)
    ∧ GskSlDefine.name { name := "BAR", body := [] } = "BAR" := by
  have h := claim_C10_table_key_is_define_name tokGood c1 "FOO" "BAR" (some "12")
    (by intro p hp; rw [List.mem_singleton.mp hp])
  exact ⟨h.1, h.2.1, h.2.2.1, h.2.2.2.1,
    h.2.2.2.2 "BAR" { name := "BAR", body := [] } (by decide)⟩
